import Mathlib

/-
Shallow embedding of the partykitServer telephony <-> AI audio relay.

The repository contains several near-identical revisions of a Durable
Object / PartyKit server that bridges a Twilio media stream (8 kHz mu-law,
base64 text frames) to a Google GenAI live session (linear PCM).  The
embedding below models, as pure Lean functions:

  * the codec helpers `muLawToLinear16` and `upsampleTo16k` of
    src/unnamed/part_004 (lines 15-47);
  * the revision with a pending-audio queue (`isGoogleAIConnected`,
    `pendingAudioQueue`) from src/unnamed/part_001 (second class,
    lines 133-306) and src/unnamed/part_002 — namespace `P2`;
  * the "test mode" revision src/unnamed/part_004 — namespace `P4`;
  * the handle-guarded revision src/src/party/main.ts (class
    `PartyKitDurable`, lines 20-195) — namespace `Main`.

Event handlers become step functions `State -> input -> State x List Eff`
(or effect lists when the source method never writes a field); the
external transports are represented by the emitted effects.  Base64 text
envelopes are abstracted: a telephony media payload travels as the base64
`String` the code forwards untouched, while audio that the code actually
decodes is carried as its decoded byte/sample list, with decoding failure
modelled by an `Option` (mirroring the source's try/catch).  WebSocket
`readyState` is the usual numeric code (1 = OPEN); `close()` moves it to
2 (CLOSING), which is all the sources ever test (`=== WebSocket.OPEN`).
-/

/-- Storing an integer into a JS `Int16Array` slot: wrap to the signed
16-bit range, as two's complement does. -/
def toInt16 (x : Int) : Int :=
  (x + 32768) % 65536 - 32768

/-- One entry of the mu-law expansion table built by `muLawToLinear16`
(src/unnamed/part_004 lines 18-27).  JS `~i` on the 32-bit integer `i`
has unsigned representation `2^32 - 1 - i`; `sample & 0x80` tests bit 7,
`(sample >> 4) & 0x07` extracts bits 4-6 (arithmetic shift does not
disturb the low bits), `sample & 0x0F` extracts bits 0-3.  The final
store into the `Int16Array` wraps to 16 bits. -/
def muLawToLinear16Entry (i : Nat) : Int :=
  let sampleU : Nat := 4294967295 - i
  let sign : Int := if sampleU.testBit 7 then -1 else 1
  let exponent : Nat := (sampleU >>> 4) &&& 7
  let mantissa : Nat := sampleU &&& 15
  let linear : Int := (((((mantissa <<< 1) + 33) <<< (exponent + 2)) : Nat) : Int) - 33
  toInt16 (sign * linear)

/-- Mu-law decode of a whole buffer (src/unnamed/part_004 lines 15-34):
the source builds the 256-entry table once and maps every input byte
through it, which is the same function as mapping each byte through the
table entry. -/
def muLawToLinear16 (l : List (Fin 256)) : List Int :=
  l.map fun b => muLawToLinear16Entry b.val

/-- The expansion formula the claim (and spec section 4.1) describes in
words: complement the byte (8-bit), take the sign bit, the 3-bit
exponent and the 4-bit mantissa, apply the bias of +33 and the shift by
`exponent + 2`, producing a signed 16-bit linear sample. -/
def muLawDecodeClaim (b : Fin 256) : Int :=
  let u : Nat := 255 - b.val
  let sign : Int := if u.testBit 7 then -1 else 1
  let exponent : Nat := (u >>> 4) &&& 7
  let mantissa : Nat := u &&& 15
  sign * ((2 * (mantissa : Int) + 33) * 2 ^ (exponent + 2) - 33)

/-- Upsampler of src/unnamed/part_004 lines 37-47: the loop writes each
input sample to output slots `2*i` and `2*i+1`, i.e. it duplicates every
sample in order. -/
def upsampleTo16k : List Int → List Int
  | [] => []
  | s :: rest => s :: s :: upsampleTo16k rest

/-- Modelled from the spec: `downsampleBuffer` is imported from
`../audioUtils`, a file absent from src/.  Spec section 4.1 describes it
as decimation by the integer ratio (every Nth sample, N = from/to). -/
def downsampleBuffer (samples : List Int) (fromRate toRate : Nat) : List Int :=
  let r := fromRate / toRate
  (samples.enum.filter fun p => p.1 % r == 0).map Prod.snd

/-- Modelled from the spec: one sample of `linear16ToMuLaw`, also from
the missing `../audioUtils`; spec section 4.1 requires the standard
G.711 encode (sign bit, clamp, +132 bias, exponent/mantissa, complement). -/
def linear16ToMuLawSample (x : Int) : Nat :=
  let sign : Nat := if x < 0 then 128 else 0
  let mag : Nat := min x.natAbs 32635 + 132
  let exponent : Nat := Nat.log2 mag - 7
  let mantissa : Nat := (mag >>> (exponent + 3)) &&& 15
  (sign ||| (exponent <<< 4) ||| mantissa) ^^^ 255

/-- Modelled from the spec: buffer-level mu-law encode from the missing
`../audioUtils`, one byte per 16-bit sample. -/
def linear16ToMuLaw (l : List Int) : List Nat :=
  l.map linear16ToMuLawSample

/-- Parsed shape of a message on the Twilio WebSocket.  The handlers
receive raw text and `JSON.parse` it inside a try/catch, so the step
functions take an `Option TwilioMsg`: `none` is an unparseable message
(or one whose accessed fields are missing, which throws into the same
catch). -/
inductive TwilioMsg where
  | start (streamSid : String) (systemInstruction : Option String) (agentVoice : Option String)
  | media (payload : String)
  | stop
  | other

/-- Shape of a Google live-session `onmessage` event as read by the
part_002 callback only: its chain
`serverContent?.modelTurn?.parts?.[0]?.inlineData?.data` is optional at
every step, so it collapses faithfully to an optional audio payload
(carried here as its decoded PCM sample list), plus the `turnComplete`
control flag.  The main.ts callback indexes `parts[0]` without a guard,
so its events keep the full nesting (see `Main.AIMsg`). -/
structure GoogleMsg where
  audio : Option (List Int)
  turnComplete : Bool

namespace P2

/-- Observable effects of the part_001 (second class) / part_002
Durable Object: sends on the Google session, a connect request, sends
and closes on the Twilio WebSocket. -/
inductive Eff where
  | sessionSendMedia (data : String) (mimeType : String)
  | sessionSendText (text : String)
  | sessionClose
  | connectGoogle (streamSid : String)
  | wsSend (streamSid : Option String) (payload : List Nat)
  | wsClose
  deriving DecidableEq

/-- Mutable fields of the part_001/part_002 `PartyKitDurable` object.
`wsReadyState = none` models `this.ws === null`. -/
structure State where
  googleAISession : Option Unit
  wsReadyState : Option Nat
  isGoogleAIConnected : Bool
  pendingAudioQueue : List String
  twilioStreamSid : Option String
  deriving DecidableEq

/-- `sendAudioToGoogle` of part_002 lines 87-99: forwards the raw base64
payload directly with the mu-law mime type, through the optional chain
on the session handle (no effect when the handle is null). -/
def sendAudioToGoogle (sess : Option Unit) (payload : String) : List Eff :=
  match sess with
  | some _ => [Eff.sessionSendMedia payload "audio/mulaw;rate=8000"]
  | none => []

/-- `onClose` of part_001 lines 294-305 / part_002 lines 179-185: clear
the connected flag, close the session handle if present and null it,
close the WebSocket if (and only if) its readyState is OPEN. -/
def onClose (s : State) : State × List Eff :=
  ({ s with
      isGoogleAIConnected := false
      googleAISession := none
      wsReadyState := if s.wsReadyState = some 1 then some 2 else s.wsReadyState },
   (match s.googleAISession with
    | some _ => [Eff.sessionClose]
    | none => []) ++
   (if s.wsReadyState = some 1 then [Eff.wsClose] else []))

/-- `onMessage` of part_001 lines 185-226 / part_002 lines 49-84:
start records the stream sid and requests the Google connection; media
is forwarded when `isGoogleAIConnected && googleAISession` and queued
otherwise; stop runs `onClose`; parse failures are caught and ignored. -/
def onMessage (s : State) (m : Option TwilioMsg) : State × List Eff :=
  match m with
  | none => (s, [])
  | some (TwilioMsg.start sid _ _) =>
      ({ s with twilioStreamSid := some sid }, [Eff.connectGoogle sid])
  | some (TwilioMsg.media p) =>
      if s.isGoogleAIConnected ∧ s.googleAISession.isSome then
        (s, sendAudioToGoogle s.googleAISession p)
      else
        ({ s with pendingAudioQueue := s.pendingAudioQueue ++ [p] }, [])
  | some TwilioMsg.stop => onClose s
  | some TwilioMsg.other => (s, [])

/-- The drain loop inside the `onopen` callback (part_001 lines 255-263,
part_002 lines 126-130): shift payloads off the queue in FIFO order and
send each through `sendAudioToGoogle`; the `if (payload)` truthiness
check skips an empty string. -/
def drain (sess : Option Unit) : List String → List Eff
  | [] => []
  | p :: rest => (if p = "" then [] else sendAudioToGoogle sess p) ++ drain sess rest

/-- The `onopen` callback of part_002 lines 121-131: mark the session
connected and drain the pending queue. -/
def onOpen (s : State) : State × List Eff :=
  ({ s with isGoogleAIConnected := true, pendingAudioQueue := [] },
   drain s.googleAISession s.pendingAudioQueue)

/-- The `onmessage` callback of part_002 lines 132-165: if the event
carries audio and the WebSocket is OPEN, transcode (24 kHz PCM ->
decimate to 8 kHz -> mu-law, via the audioUtils helpers) and send to
Twilio; turn-complete and other non-audio events only log. -/
def onAIMessage (s : State) (m : GoogleMsg) : List Eff :=
  match m.audio with
  | some a =>
      if s.wsReadyState = some 1 then
        [Eff.wsSend s.twilioStreamSid (linear16ToMuLaw (downsampleBuffer a 24000 8000))]
      else []
  | none => []

/-- Iterated message handling: fold `onMessage` over a list of inbound
Twilio messages, collecting all effects. -/
def run (s : State) : List (Option TwilioMsg) → State × List Eff
  | [] => (s, [])
  | m :: ms =>
      let step := onMessage s m
      let rest := run step.1 ms
      (rest.1, step.2 ++ rest.2)


/-- Occurrence count of one effect in an effect trace (used to state
"released exactly once"). -/
def countEff (e : Eff) : List Eff → Nat
  | [] => 0
  | x :: rest => (if x = e then 1 else 0) + countEff e rest

end P2

namespace P4

/-- Observable effects of the part_004 revision: audio sent to the
Google session travels as its decoded 16 kHz PCM sample list. -/
inductive Eff where
  | sessionSendAudio (data : List Int) (mimeType : String)
  | sessionSendText (text : String)
  | sessionClose
  | connectGoogle (streamSid : String)
  | wsSend (streamSid : Option String) (payload : List Nat)
  | wsClose
  deriving DecidableEq

/-- Mutable fields of the part_004 `PartyKitDurable` object (lines
49-56), identical to the part_001/part_002 layout. -/
structure State where
  googleAISession : Option Unit
  wsReadyState : Option Nat
  isGoogleAIConnected : Bool
  pendingAudioQueue : List String
  twilioStreamSid : Option String
  deriving DecidableEq

/-- Shape of a Google `onmessage` event as read by the part_004
callback (lines 184-224): audio may sit directly in `message.data`, or
in `serverContent.modelTurn.parts` (each part optionally carrying
`inlineData.data`), or the event is a turn-complete / other control
message. -/
structure AIMsg where
  data : Option (List Int)
  parts : Option (List (Option (List Int)))
  turnComplete : Bool

/-- `onClose` of part_004 lines 272-278: clear the flag, close the
session through the optional chain, null it, close the WebSocket if
OPEN. -/
def onClose (s : State) : State × List Eff :=
  ({ s with
      isGoogleAIConnected := false
      googleAISession := none
      wsReadyState := if s.wsReadyState = some 1 then some 2 else s.wsReadyState },
   (match s.googleAISession with
    | some _ => [Eff.sessionClose]
    | none => []) ++
   (if s.wsReadyState = some 1 then [Eff.wsClose] else []))

/-- `onMessage` of part_004 lines 84-121.  The media branch (lines
105-113) only logs "Skipping audio chunk (test mode)": both the direct
send and the queueing are commented out, so a media frame has no
effect at all. -/
def onMessage (s : State) (m : Option TwilioMsg) : State × List Eff :=
  match m with
  | none => (s, [])
  | some (TwilioMsg.start sid _ _) =>
      ({ s with twilioStreamSid := some sid }, [Eff.connectGoogle sid])
  | some (TwilioMsg.media _) => (s, [])
  | some TwilioMsg.stop => onClose s
  | some TwilioMsg.other => (s, [])

/-- `sendAudioToGoogle` of part_004 lines 124-141: base64-decode the
payload (failure lands in the catch and is only logged — modelled by
the `none` case), mu-law decode, upsample to 16 kHz and send through
the optional chain on the session handle. -/
def sendAudioToGoogle (s : State) (decoded : Option (List (Fin 256))) : List Eff :=
  match decoded with
  | none => []
  | some bytes =>
      match s.googleAISession with
      | some _ =>
          [Eff.sessionSendAudio (upsampleTo16k (muLawToLinear16 bytes)) "audio/pcm;rate=16000"]
      | none => []

/-- `sendAudioToTwilio` of part_004 lines 247-270: return immediately
unless the WebSocket exists and its readyState is OPEN; otherwise
downsample 24 kHz -> 8 kHz, mu-law encode and send the media envelope. -/
def sendAudioToTwilio (s : State) (audioData : List Int) : List Eff :=
  if s.wsReadyState = some 1 then
    [Eff.wsSend s.twilioStreamSid (linear16ToMuLaw (downsampleBuffer audioData 24000 8000))]
  else []

/-- The `for (const part of parts)` loop of part_004 lines 207-212:
forward each part that carries inline audio data. -/
def sendParts (s : State) : List (Option (List Int)) → List Eff
  | [] => []
  | none :: rest => sendParts s rest
  | some a :: rest => sendAudioToTwilio s a ++ sendParts s rest

/-- The `onmessage` callback of part_004 lines 184-224: audio in
`message.data` wins, else the parts loop runs (an empty parts array is
truthy in JS, so `some []` still selects that branch), else
turn-complete and unknown messages only log. -/
def onAIMessage (s : State) (m : AIMsg) : List Eff :=
  match m.data with
  | some a => sendAudioToTwilio s a
  | none =>
      match m.parts with
      | some ps => sendParts s ps
      | none => []

end P4

namespace Main

/-- Observable effects of the src/src/party/main.ts `PartyKitDurable`:
the uplink forwards Google's base64 audio untranscoded, so the send
carries the payload as-is. -/
inductive Eff where
  | sessionSendMedia (data : String) (mimeType : String)
  | sessionSendText (text : String)
  | sessionClose
  | wsSendAudio (streamSid : String) (payload : List Int)
  deriving DecidableEq

/-- Mutable fields of the main.ts object (lines 21-22) plus the room id
used as the stream sid in the uplink envelope. -/
structure State where
  googleAISession : Option Unit
  wsReadyState : Option Nat
  roomId : String
  deriving DecidableEq

/-- `onClose` of main.ts lines 188-194: close the session handle if
present and null it; the telephony transport is not touched. -/
def onClose (s : State) : State × List Eff :=
  ({ s with googleAISession := none },
   match s.googleAISession with
   | some _ => [Eff.sessionClose]
   | none => [])

/-- `onMessage` of main.ts lines 168-186: `if (!this.googleAISession)
return;` guards the whole body, then media is forwarded to the session
and stop runs `onClose`, with parse failures caught and ignored. -/
def onMessage (s : State) (m : Option TwilioMsg) : State × List Eff :=
  match s.googleAISession with
  | none => (s, [])
  | some _ =>
      match m with
      | none => (s, [])
      | some (TwilioMsg.media p) => (s, [Eff.sessionSendMedia p "audio/pcm;rate=8000"])
      | some TwilioMsg.stop => onClose s
      | some (TwilioMsg.start _ _ _) => (s, [])
      | some TwilioMsg.other => (s, [])

/-- The `modelTurn` object as main.ts reads it: its `parts` property may
be absent (`none`), since the SDK marks `Content.parts` optional; each
array element stands for its fully guarded `?.inlineData?.data` value. -/
structure ModelTurn where
  parts : Option (List (Option (List Int)))

/-- The `serverContent` object: an optional `modelTurn` plus the
`turnComplete` control flag. -/
structure ServerContent where
  modelTurn : Option ModelTurn
  turnComplete : Bool

/-- A Google live-session `onmessage` event for the main.ts callback,
keeping the serverContent/modelTurn/parts nesting because main.ts
indexes `parts[0]` without a guard; an absent JS property is `none`. -/
structure AIMsg where
  serverContent : Option ServerContent

/-- The audio payload an event carries (read with every step guarded):
`none` when any level is absent, the array is empty or the first part
has no inline data.  This is the model-level notion of a "no audio
payload" event, independent of how any revision reads the event. -/
def AIMsg.audioPayload (m : AIMsg) : Option (List Int) :=
  match m.serverContent with
  | none => none
  | some sc =>
      match sc.modelTurn with
      | none => none
      | some mt =>
          match mt.parts with
          | none => none
          | some ps => ps.head?.join

/-- Whether an event avoids the shape that main.ts cannot read: `false`
exactly when `modelTurn` exists without a `parts` array. -/
def AIMsg.wellFormed (m : AIMsg) : Bool :=
  match m.serverContent with
  | none => true
  | some sc =>
      match sc.modelTurn with
      | none => true
      | some mt => mt.parts.isSome

/-- The expression `message.serverContent?.modelTurn?.parts[0]?.inlineData?.data`
of main.ts line 140: optional chaining short-circuits the whole chain on
an absent `serverContent` or `modelTurn`, and `[0]?.inlineData?.data`
short-circuits on an empty array or a part without inline data; but the
`[0]` index itself is NOT optional-chained, so when `modelTurn` exists
without a `parts` array the access `undefined[0]` throws a TypeError,
modelled as the error outcome. -/
def audioData (m : AIMsg) : Except Unit (Option (List Int)) :=
  match m.serverContent with
  | none => Except.ok none
  | some sc =>
      match sc.modelTurn with
      | none => Except.ok none
      | some mt =>
          match mt.parts with
          | none => Except.error ()
          | some ps => Except.ok ps.head?.join

/-- The `onmessage` callback of main.ts lines 139-149: evaluate the
audio chain (which may throw, and the callback has no try/catch, so a
thrown TypeError escapes as the error outcome), then `if (audioData &&
this.ws)` — the WebSocket is only tested for being non-null, never for
its readyState — and forward the payload raw. -/
def onAIMessage (s : State) (m : AIMsg) : Except Unit (List Eff) :=
  match audioData m with
  | Except.error e => Except.error e
  | Except.ok none => Except.ok []
  | Except.ok (some a) =>
      match s.wsReadyState with
      | some _ => Except.ok [Eff.wsSendAudio s.roomId a]
      | none => Except.ok []


/-- Occurrence count of one effect in an effect trace. -/
def countEff (e : Eff) : List Eff → Nat
  | [] => 0
  | x :: rest => (if x = e then 1 else 0) + countEff e rest

end Main

set_option maxRecDepth 4000 in
/-- C1: for every companded byte 0-255, the part_004 decode reproduces
the claimed expansion (complement the byte, sign bit, 3-bit exponent,
4-bit mantissa, bias +33, shift by exponent+2) exactly, and the output
has one sample per input byte. -/
theorem C1_muLawToLinear16_matches_claim_formula :
    ∀ (l : List (Fin 256)),
      muLawToLinear16 l = l.map muLawDecodeClaim ∧
      (muLawToLinear16 l).length = l.length := by
  have h : ∀ b : Fin 256, muLawToLinear16Entry b.val = muLawDecodeClaim b := by decide
  intro l
  constructor
  · unfold muLawToLinear16
    exact List.map_congr_left fun b _ => h b
  · unfold muLawToLinear16
    exact List.length_map _ _

theorem upsampleTo16k_length (l : List Int) :
    (upsampleTo16k l).length = 2 * l.length := by
  induction l with
  | nil => rfl
  | cons a rest ih =>
      simp only [upsampleTo16k, List.length_cons, ih]
      omega

theorem upsampleTo16k_get (l : List Int) :
    ∀ i : Nat, (upsampleTo16k l)[2 * i]? = l[i]? ∧ (upsampleTo16k l)[2 * i + 1]? = l[i]? := by
  induction l with
  | nil => intro i; simp [upsampleTo16k]
  | cons a rest ih =>
      intro i
      cases i with
      | zero => simp [upsampleTo16k]
      | succ j =>
          have h1 : 2 * (j + 1) = 2 * j + 1 + 1 := by omega
          rw [h1]
          simpa [upsampleTo16k, List.getElem?_cons_succ] using ih j

/-- C6: the part_004 upsampler emits exactly 2*S samples for S input
samples — the exact `round(S * 16000 / 8000)` count, with zero rounding
error — by duplicating each input sample in place. -/
theorem C6_upsample_doubles_and_duplicates :
    ∀ (l : List Int),
      (upsampleTo16k l).length = 2 * l.length ∧
      (upsampleTo16k l).length * 8000 = l.length * 16000 ∧
      ∀ i : Nat, (upsampleTo16k l)[2 * i]? = l[i]? ∧ (upsampleTo16k l)[2 * i + 1]? = l[i]? := by
  intro l
  refine ⟨upsampleTo16k_length l, ?_, upsampleTo16k_get l⟩
  rw [upsampleTo16k_length l]
  ring

/-- C2 counterexample: in the part_004 revision the media branch is
disabled ("test mode"), so a media frame arriving while the AI session
is not ready is neither queued nor forwarded — the pending buffer stays
empty and no effect is emitted: the frame is dropped. -/
theorem C2_cex_part004_drops_preready_frame :
    P4.onMessage ⟨none, some 1, false, [], none⟩ (some (TwilioMsg.media "abc"))
      = (⟨none, some 1, false, [], none⟩, []) := rfl

/-- C2 amended: in the part_001/part_002 Durable Object revision, every
media frame arriving while the session is not ready (`isGoogleAIConnected
&& googleAISession` false) is appended to the tail of
`pendingAudioQueue` with no other state change and no effect — never
dropped there.  The part_004 test-mode revision and the handle-guarded
main.ts revision discard such frames instead. -/
theorem C2_preready_frame_enqueued (s : P2.State) (p : String)
    (h : ¬(s.isGoogleAIConnected ∧ s.googleAISession.isSome)) :
    P2.onMessage s (some (TwilioMsg.media p))
      = ({ s with pendingAudioQueue := s.pendingAudioQueue ++ [p] }, []) := by
  simp only [P2.onMessage]
  rw [if_neg h]

theorem C2_preready_frame_enqueued_witness :
    P2.onMessage ⟨none, some 1, false, ["a"], none⟩ (some (TwilioMsg.media "b"))
      = (⟨none, some 1, false, ["a", "b"], none⟩, []) := by
  have h := C2_preready_frame_enqueued ⟨none, some 1, false, ["a"], none⟩ "b" (by decide)
  simpa using h

/-- C3 counterexample: the drain loop's `if (payload)` truthiness check
skips an empty-string payload, so a buffered frame with payload `""` is
removed from the queue without ever being forwarded: with one such frame
buffered, the session-open drain emits no send although the claim
requires exactly that one frame to be forwarded. -/
theorem C3_cex_drain_skips_empty_payload :
    (P2.onOpen ⟨some (), some 1, false, [""], none⟩).2 = [] ∧
    (P2.onOpen ⟨some (), some 1, false, [""], none⟩).1.pendingAudioQueue = [] := by
  decide

theorem drain_some_eq_map :
    ∀ (q : List String), (∀ p ∈ q, p ≠ "") →
      P2.drain (some ()) q = q.map fun p => P2.Eff.sessionSendMedia p ("audio/mulaw;rate=8000") := by
  intro q
  induction q with
  | nil => intro _; rfl
  | cons p rest ih =>
      intro h
      have hp : p ≠ "" := h p (List.mem_cons_self p rest)
      have hrest : ∀ x ∈ rest, x ≠ "" := fun x hx => h x (List.mem_cons_of_mem p hx)
      simp [P2.drain, P2.sendAudioToGoogle, hp, ih hrest]

/-- C3 amended: at the session-open transition, provided the session
handle has been assigned and every buffered payload is a non-empty
string, the drain forwards exactly the buffered frames in their arrival
order, leaves the buffer empty, and a frame arriving afterwards is
forwarded directly (hence strictly after all drained frames). -/
theorem C3_drain_forwards_nonempty_queue_in_order (s : P2.State)
    (hs : s.googleAISession = some ())
    (hq : ∀ p ∈ s.pendingAudioQueue, p ≠ "") :
    (P2.onOpen s).2
        = s.pendingAudioQueue.map (fun p => P2.Eff.sessionSendMedia p ("audio/mulaw;rate=8000")) ∧
    (P2.onOpen s).1.pendingAudioQueue = [] ∧
    (P2.onOpen s).1.isGoogleAIConnected = true ∧
    ∀ p, P2.onMessage (P2.onOpen s).1 (some (TwilioMsg.media p))
        = ((P2.onOpen s).1, [P2.Eff.sessionSendMedia p ("audio/mulaw;rate=8000")]) := by
  refine ⟨?_, rfl, rfl, ?_⟩
  · show P2.drain s.googleAISession s.pendingAudioQueue = _
    rw [hs]
    exact drain_some_eq_map s.pendingAudioQueue hq
  · intro p
    simp [P2.onMessage, P2.onOpen, P2.sendAudioToGoogle, hs]

theorem C3_drain_forwards_nonempty_queue_in_order_witness :
    (P2.onOpen ⟨some (), some 1, false, ["a", "b"], none⟩).2
      = [P2.Eff.sessionSendMedia "a" ("audio/mulaw;rate=8000"),
         P2.Eff.sessionSendMedia "b" ("audio/mulaw;rate=8000")] := by
  have h := C3_drain_forwards_nonempty_queue_in_order
      ⟨some (), some 1, false, ["a", "b"], none⟩ rfl (by decide)
  simpa using h.1

/-- C4: the cleanup of both the part_001/part_002 revision and main.ts
is idempotent and single-release: running `onClose` twice from any state
leaves the second call a pure no-op (same state, no effects — in
particular nothing is closed a second time), the two calls together
close the AI session handle exactly once when one was live (and never
otherwise), and close the telephony WebSocket at most once.  Every
handler here is a total function, so no call throws. -/
theorem C4_onClose_idempotent_single_release :
    ∀ (s : P2.State) (t : Main.State),
      P2.onClose (P2.onClose s).1 = ((P2.onClose s).1, []) ∧
      P2.countEff P2.Eff.sessionClose ((P2.onClose s).2 ++ (P2.onClose (P2.onClose s).1).2)
          = (if s.googleAISession.isSome then 1 else 0) ∧
      P2.countEff P2.Eff.wsClose ((P2.onClose s).2 ++ (P2.onClose (P2.onClose s).1).2) ≤ 1 ∧
      Main.onClose (Main.onClose t).1 = ((Main.onClose t).1, []) ∧
      Main.countEff Main.Eff.sessionClose
          ((Main.onClose t).2 ++ (Main.onClose (Main.onClose t).1).2)
          = (if t.googleAISession.isSome then 1 else 0) := by
  intro s t
  obtain ⟨g, w, c, q, sid⟩ := s
  obtain ⟨tg, tw, tr⟩ := t
  cases g <;> cases tg <;> by_cases hw : w = some 1 <;>
    simp [P2.onClose, Main.onClose, P2.countEff, Main.countEff, hw]

/-- C5 counterexample: from the freshly connected state, ten media
frames arriving before the AI session is ready are all enqueued — the
pending queue reaches length 10 with no effect emitted at all: no
enqueue ever closes the session, so no finite cap is enforced. -/
theorem C5_cex_no_backpressure_close :
    (P2.run ⟨none, some 1, false, [], none⟩
        (List.replicate 10 (some (TwilioMsg.media "x")))).1.pendingAudioQueue.length = 10 ∧
    (P2.run ⟨none, some 1, false, [], none⟩
        (List.replicate 10 (some (TwilioMsg.media "x")))).2 = [] := by
  decide

/-- C5 amended: the source enforces no pending-frame cap.  From any
state in which the session is not ready, a sequence of N media frames
grows `pendingAudioQueue` by exactly those N payloads in order and emits
no effect whatsoever — in particular no close and no
BackpressureExceeded condition exist, and the queue length is unbounded
over reachable states. -/
theorem C5_queue_grows_unbounded_without_close :
    ∀ (ps : List String) (s : P2.State),
      ¬(s.isGoogleAIConnected ∧ s.googleAISession.isSome) →
      (P2.run s (ps.map fun p => some (TwilioMsg.media p))).1.pendingAudioQueue
          = s.pendingAudioQueue ++ ps ∧
      (P2.run s (ps.map fun p => some (TwilioMsg.media p))).2 = [] := by
  intro ps
  induction ps with
  | nil => intro s _; simp [P2.run]
  | cons p rest ih =>
      intro s h
      have hstep : P2.onMessage s (some (TwilioMsg.media p))
          = ({ s with pendingAudioQueue := s.pendingAudioQueue ++ [p] }, []) := by
        simp only [P2.onMessage]
        rw [if_neg h]
      have h2 : ¬(({ s with pendingAudioQueue := s.pendingAudioQueue ++ [p] } : P2.State).isGoogleAIConnected
            ∧ ({ s with pendingAudioQueue := s.pendingAudioQueue ++ [p] } : P2.State).googleAISession.isSome) := by
        simpa using h
      have hrest := ih { s with pendingAudioQueue := s.pendingAudioQueue ++ [p] } h2
      simp only [List.map_cons, P2.run, hstep]
      refine ⟨?_, ?_⟩
      · rw [hrest.1]
        simp
      · simp [hrest.2]

theorem C5_queue_grows_unbounded_without_close_witness :
    (P2.run ⟨none, some 1, false, [], none⟩
        (["a", "b"].map fun p => some (TwilioMsg.media p))).1.pendingAudioQueue = ["a", "b"] := by
  have h := C5_queue_grows_unbounded_without_close ["a", "b"] ⟨none, some 1, false, [], none⟩
      (by decide)
  simpa using h.1

/-- C7 counterexample: an event whose `modelTurn` exists without a
`parts` array carries no audio payload, yet the main.ts callback (cited
by the claim) throws a TypeError on it: line 140 indexes `parts[0]`
without a guard, and the callback has no try/catch.  This no-audio
event raises an error instead of being recognized and ignored. -/
theorem C7_cex_main_throws_on_partless_turn :
    Main.AIMsg.audioPayload ⟨some ⟨some ⟨none⟩, false⟩⟩ = none ∧
    Main.onAIMessage ⟨some (), some 1, "room1"⟩ ⟨some ⟨some ⟨none⟩, false⟩⟩
      = Except.error () :=
  ⟨rfl, rfl⟩

/-- C7 amended: in part_002's callback, whose extraction chain is
optional at every step, every event with no audio payload (for example
a pure turn-complete marker) sends nothing to the telephony transport
and raises no error; the main.ts callback behaves the same on every
no-audio event except the shape with a `modelTurn` but no `parts`
array, where its unguarded `parts[0]` access throws. -/
theorem C7_nonaudio_event_sends_nothing (s2 : P2.State) (m2 : GoogleMsg)
    (sm : Main.State) (mm : Main.AIMsg)
    (h2 : m2.audio = none) (hA : mm.audioPayload = none) (hW : mm.wellFormed = true) :
    P2.onAIMessage s2 m2 = [] ∧ Main.onAIMessage sm mm = Except.ok [] := by
  constructor
  · simp [P2.onAIMessage, h2]
  · obtain ⟨sc⟩ := mm
    cases sc with
    | none => rfl
    | some sc =>
        obtain ⟨mt, tc⟩ := sc
        cases mt with
        | none => rfl
        | some mt =>
            obtain ⟨ps⟩ := mt
            cases ps with
            | none => simp [Main.AIMsg.wellFormed] at hW
            | some l =>
                simp only [Main.AIMsg.audioPayload] at hA
                simp only [Main.onAIMessage, Main.audioData]
                rw [hA]

theorem C7_nonaudio_event_sends_nothing_witness :
    P2.onAIMessage ⟨some (), some 1, true, [], some "sid"⟩ ⟨none, true⟩ = [] ∧
    Main.onAIMessage ⟨some (), some 1, "r"⟩ ⟨some ⟨none, true⟩⟩ = Except.ok [] :=
  C7_nonaudio_event_sends_nothing ⟨some (), some 1, true, [], some "sid"⟩ ⟨none, true⟩
      ⟨some (), some 1, "r"⟩ ⟨some ⟨none, true⟩⟩ rfl rfl rfl

/-- C8 counterexample: the main.ts uplink callback tests only that the
connection object is non-null (`audioData && this.ws`), never its
readyState, so with the transport already CLOSED (readyState 3) an AI
audio event (here one inline-data part carrying the samples) is still
sent to the telephony transport rather than dropped. -/
theorem C8_cex_main_sends_on_closed_ws :
    Main.onAIMessage ⟨some (), some 3, "room1"⟩ ⟨some ⟨some ⟨some [some [7]]⟩, false⟩⟩
      = Except.ok [Main.Eff.wsSendAudio "room1" [7]] := rfl

theorem sendParts_no_send_when_ws_not_open (s : P4.State) (h : ¬ s.wsReadyState = some 1) :
    ∀ ps, P4.sendParts s ps = [] := by
  intro ps
  induction ps with
  | nil => rfl
  | cons p rest ih =>
      cases p with
      | none => simpa [P4.sendParts] using ih
      | some a => simp [P4.sendParts, P4.sendAudioToTwilio, h, ih]

/-- C8 amended: in the part_004 and part_001/part_002 revisions the
uplink drops every AI audio event silently whenever the telephony
WebSocket is missing or not OPEN — no send, no error (the handlers are
total).  The main.ts revision instead checks only that the connection
object is non-null and attempts the send even on a closed transport. -/
theorem C8_closed_transport_drops_frame (s4 : P4.State) (m4 : P4.AIMsg)
    (s2 : P2.State) (m2 : GoogleMsg)
    (h4 : ¬ s4.wsReadyState = some 1) (h2 : ¬ s2.wsReadyState = some 1) :
    P4.onAIMessage s4 m4 = [] ∧ P2.onAIMessage s2 m2 = [] := by
  constructor
  · obtain ⟨d, ps, tc⟩ := m4
    cases d with
    | some a => simp [P4.onAIMessage, P4.sendAudioToTwilio, h4]
    | none =>
        cases ps with
        | none => simp [P4.onAIMessage]
        | some l => simp [P4.onAIMessage, sendParts_no_send_when_ws_not_open _ h4]
  · obtain ⟨a, tc⟩ := m2
    cases a with
    | some x => simp [P2.onAIMessage, h2]
    | none => simp [P2.onAIMessage]

theorem C8_closed_transport_drops_frame_witness :
    P4.onAIMessage ⟨some (), some 3, true, [], some "sid"⟩ ⟨some [1, 2], none, false⟩ = [] :=
  (C8_closed_transport_drops_frame ⟨some (), some 3, true, [], some "sid"⟩
      ⟨some [1, 2], none, false⟩ ⟨some (), none, true, [], none⟩ ⟨some [3], false⟩
      (by decide) (by decide)).1

/-- C9: a malformed inbound frame fails locally — the main.ts message
handler maps an unparseable message to the unchanged state with no
effect (the catch path), after which any subsequent message is processed
exactly as if the malformed one had never arrived; and part_004's
`sendAudioToGoogle` maps an undecodable payload to no effect at all (its
catch path), touching no state field.  All handlers are total: no
exception escapes. -/
theorem C9_malformed_frame_local_failure :
    ∀ (s : Main.State) (m : Option TwilioMsg) (b : P4.State),
      Main.onMessage s none = (s, []) ∧
      Main.onMessage (Main.onMessage s none).1 m = Main.onMessage s m ∧
      P4.sendAudioToGoogle b none = [] := by
  intro s m b
  have h1 : Main.onMessage s none = (s, []) := by
    cases hg : s.googleAISession <;> simp [Main.onMessage, hg]
  exact ⟨h1, by rw [h1], rfl⟩

/-- C10: in the handle-guarded revision (src/src/party/main.ts
onMessage), any telephony message processed while `googleAISession` is
null — including an explicit stop event — is a complete no-op: the state
is returned unchanged and no effect is emitted, so nothing is queued,
sent or closed. -/
theorem C10_guarded_handler_noop_when_session_null (s : Main.State) (m : Option TwilioMsg)
    (h : s.googleAISession = none) :
    Main.onMessage s m = (s, []) := by
  simp [Main.onMessage, h]

theorem C10_guarded_handler_noop_when_session_null_witness :
    Main.onMessage ⟨none, some 1, "r"⟩ (some TwilioMsg.stop) = (⟨none, some 1, "r"⟩, []) :=
  C10_guarded_handler_noop_when_session_null ⟨none, some 1, "r"⟩ (some TwilioMsg.stop) rfl
